import Mathlib

/-!
# Verification of the backend core (retry executor, verification pipeline,
  randomness selector, storage proxy)

Shallow embedding of `backend/lib/retry.py`, `backend/api/verify.py`,
`backend/api/qrng.py` and `backend/api/ipfs.py`.  Asynchronous effects are
made explicit: each embedded operation returns its result together with a
list of events (calls, log records, sleeps, external contacts) in the order
the Python code performs them.  Python floats are modelled as rationals,
Python ints as `Int`/`Nat`, raised exceptions as `Except` errors.
-/

set_option maxRecDepth 4000

/-! ## Retry executor (`backend/lib/retry.py`) -/

/-- `RetryConfig` from `retry.py` (lines 18-27).  The tuple of retryable
exception classes is modelled as a Boolean predicate on error values. -/
structure RetryConfig (E : Type) where
  max_attempts : Nat := 3
  initial_delay : ℚ := 1
  max_delay : ℚ := 60
  backoff_factor : ℚ := 2
  jitter : Bool := true
  retryable : E → Bool := fun _ => true

/-- Errors surfaced by `retry_async`: either the exception of the last failed
attempt, or the defensive `Exception("Retry logic error")` at the end of the
function (lines 92-95). -/
inductive RetryError (E : Type) where
  | fromOp (e : E)
  | logicError
deriving DecidableEq

/-- Observable events of one `retry_async` run, in program order:
`call a` is an invocation of the wrapped operation on attempt `a`;
`succeededLate`/`allFailed`/`retryScheduled` are the three log records
(lines 61, 68-70, 82-85); `sleep d` is the `asyncio.sleep(current_delay)`
at line 87. -/
inductive RetryEvent (E : Type) where
  | call (attempt : Nat)
  | succeededLate (attempt total : Nat)
  | allFailed (total : Nat) (e : E)
  | retryScheduled (attempt total : Nat) (delay : ℚ)
  | sleep (duration : ℚ)
deriving DecidableEq

def RetryEvent.isCall {E : Type} : RetryEvent E → Bool
  | .call _ => true
  | _ => false

def RetryEvent.isSleep {E : Type} : RetryEvent E → Bool
  | .sleep _ => true
  | _ => false

/-- The sleeps of a run, in order, with their durations. -/
def sleepDurations {E : Type} (evs : List (RetryEvent E)) : List ℚ :=
  evs.filterMap (fun e => match e with | .sleep d => some d | _ => none)

/-- The `for attempt in range(1, max_attempts + 1)` loop of `retry_async`
(lines 57-90).  `remaining` counts the attempts the loop may still make
(initially `max_attempts`), `attempt` is the Python loop variable, `delay`
the variable of line 55/90, `lastExc` the variable of line 54.  The wrapped
operation is a function of the attempt number; `uniform` models
`random.uniform` (arguments: attempt, low, high). -/
def retryLoop {A E : Type} (cfg : RetryConfig E) (op : Nat → Except E A)
    (uniform : Nat → ℚ → ℚ → ℚ) :
    Nat → Nat → ℚ → Option E → Except (RetryError E) A × List (RetryEvent E)
  | 0, _, _, none => (.error .logicError, [])
  | 0, _, _, some e => (.error (.fromOp e), [])
  | remaining + 1, attempt, delay, _ =>
    match op attempt with
    | .ok v =>
      (.ok v, .call attempt ::
        (if 1 < attempt then [RetryEvent.succeededLate attempt cfg.max_attempts] else []))
    | .error e =>
      if cfg.retryable e then
        if attempt = cfg.max_attempts then
          (.error (.fromOp e), [.call attempt, .allFailed cfg.max_attempts e])
        else
          let current₀ := min delay cfg.max_delay
          let current :=
            if cfg.jitter then
              max 0 (current₀ + uniform attempt (-(current₀ * (1 / 10))) (current₀ * (1 / 10)))
            else current₀
          let rest := retryLoop cfg op uniform remaining (attempt + 1)
            (delay * cfg.backoff_factor) (some e)
          (rest.1, .call attempt :: .retryScheduled attempt cfg.max_attempts current ::
            .sleep current :: rest.2)
      else
        (.error (.fromOp e), [.call attempt])

/-- `retry_async` (lines 30-95): run the loop starting from attempt 1 with
`delay = initial_delay` and no recorded exception. -/
def retry_async {A E : Type} (cfg : RetryConfig E) (op : Nat → Except E A)
    (uniform : Nat → ℚ → ℚ → ℚ) : Except (RetryError E) A × List (RetryEvent E) :=
  retryLoop cfg op uniform cfg.max_attempts 1 cfg.initial_delay none

/-- The delay sequence the spec sentence of C1 describes, literally:
`delay_1 = initial_delay`, `delay_{i+1} = min(delay_i * backoff_factor,
max_delay)` (index `i` here is 0-based: `claimDelay cfg i` is `delay_{i+1}`). -/
def claimDelay {E : Type} (cfg : RetryConfig E) : Nat → ℚ
  | 0 => cfg.initial_delay
  | i + 1 => min (claimDelay cfg i * cfg.backoff_factor) cfg.max_delay

/-- The wait `retry_async` actually schedules between attempt `i` and
`i + 1` (1-based `i`): the capped exponential delay
`min(initial_delay * backoff_factor ^ (i - 1), max_delay)`, perturbed by
jitter and floored at zero when `jitter` is enabled. -/
def scheduledWait {E : Type} (cfg : RetryConfig E) (uniform : Nat → ℚ → ℚ → ℚ)
    (i : Nat) : ℚ :=
  let d := min (cfg.initial_delay * cfg.backoff_factor ^ (i - 1)) cfg.max_delay
  if cfg.jitter then max 0 (d + uniform i (-(d * (1 / 10))) (d * (1 / 10))) else d

/-! ### Concrete retry inputs used as witnesses and counterexamples -/

/-- An operation that fails on every attempt (error type `Unit`). -/
def opAlwaysFail : Nat → Except Unit Unit := fun _ => .error ()

/-- A jitter source that always draws 0. -/
def uniformZero : Nat → ℚ → ℚ → ℚ := fun _ _ _ => 0

/-- Single-attempt configuration. -/
def cfgOne : RetryConfig Unit := { max_attempts := 1 }

/-- Default-like configuration with three attempts, no jitter. -/
def cfgThree : RetryConfig Unit :=
  { max_attempts := 3, initial_delay := 1, max_delay := 60, backoff_factor := 2,
    jitter := false }

/-- Configuration with `initial_delay > max_delay`: `max_attempts = 3`,
`initial_delay = 100`, `max_delay = 5`, `backoff_factor = 1/2`, no jitter. -/
def cfgCapped : RetryConfig Unit :=
  { max_attempts := 3, initial_delay := 100, max_delay := 5, backoff_factor := 1 / 2,
    jitter := false }

/-! ## Base64 (model of the Python `base64` library used by the code) -/

/-- Index of a character in the standard base64 alphabet. -/
def b64Index (c : Char) : Option Nat :=
  if 'A' ≤ c ∧ c ≤ 'Z' then some (c.toNat - 65)
  else if 'a' ≤ c ∧ c ≤ 'z' then some (c.toNat - 97 + 26)
  else if '0' ≤ c ∧ c ≤ '9' then some (c.toNat - 48 + 52)
  else if c = '+' then some 62
  else if c = '/' then some 63
  else none

def isB64Char (c : Char) : Bool := (b64Index c).isSome

/-- A character the regex class `[A-Za-z0-9+/=]` accepts. -/
def isB64UrlChar (c : Char) : Bool := isB64Char c || c == '='

def b64Byte1 (va vb : Nat) : Nat := va * 4 + vb / 16

def b64Byte2 (vb vc : Nat) : Nat := vb % 16 * 16 + vc / 4

def b64Byte3 (vc vd : Nat) : Nat := vc % 4 * 64 + vd

/-- Decode base64 characters in groups of four; `=` padding is allowed only
in the final group.  `none` models a `binascii.Error`. -/
def decodeGroups : List Char → Option (List Nat)
  | [] => some []
  | a :: b :: c :: d :: rest =>
    match b64Index a, b64Index b with
    | some va, some vb =>
      if c = '=' then
        if d = '=' ∧ rest = [] then some [b64Byte1 va vb] else none
      else
        match b64Index c with
        | none => none
        | some vc =>
          if d = '=' then
            if rest = [] then some [b64Byte1 va vb, b64Byte2 vb vc] else none
          else
            match b64Index d with
            | none => none
            | some vd =>
              (decodeGroups rest).map
                (fun tail => b64Byte1 va vb :: b64Byte2 vb vc :: b64Byte3 vc vd :: tail)
    | _, _ => none
  | _ => none

/-- Python `base64.b64decode(s)` with the default `validate=False`:
characters outside the alphabet and `=` are discarded before decoding. -/
def pyB64decode (s : String) : Option (List Nat) :=
  decodeGroups (s.data.filter isB64UrlChar)

/-! Structurally recursive models of the Python `str` methods the pipeline
uses (`strip`, `lower`, `split`, prefix test), working on the character
list of the string. -/

/-- Python `str.strip()`: drop leading and trailing whitespace. -/
def stripChars (l : List Char) : List Char :=
  ((l.dropWhile Char.isWhitespace).reverse.dropWhile Char.isWhitespace).reverse

def pyStrip (s : String) : String := ⟨stripChars s.data⟩

/-- Python `str.lower()` (the goal names and reflections are ASCII). -/
def pyLower (s : String) : String := ⟨s.data.map Char.toLower⟩

/-- Whether the first list is a prefix of the second (models the regex
anchor matching of `validate_data_url`). -/
def isPrefixList (pat s : List Char) : Bool :=
  match pat with
  | [] => true
  | p :: ps =>
    match s with
    | [] => false
    | q :: qs => if p = q then isPrefixList ps qs else false

def splitWsAux : List Char → List Char → List String
  | [], acc => if acc.isEmpty then [] else [⟨acc.reverse⟩]
  | c :: cs, acc =>
    if c.isWhitespace then
      if acc.isEmpty then splitWsAux cs []
      else (⟨acc.reverse⟩ : String) :: splitWsAux cs []
    else splitWsAux cs (c :: acc)

/-- Python `str.split()` with no argument: split on whitespace runs,
producing no empty tokens. -/
def pySplitWs (s : String) : List String := splitWsAux s.data []

/-! ## Verification pipeline (`backend/api/verify.py`) -/

/-- Python builtin `max` on two ints. -/
def pyMax (a b : Int) : Int := if a ≤ b then b else a

/-- Python builtin `min` on two ints. -/
def pyMin (a b : Int) : Int := if a ≤ b then a else b

/-- `VALID_GOALS` (verify.py lines 18-24). -/
def VALID_GOALS : List (String × String) :=
  [("run_5km", "Run 5km"), ("read_20_pages", "Read 20 pages"),
   ("meditate_10min", "Meditate 10 minutes"), ("make_sketch", "Make a sketch"),
   ("custom", "Custom goal")]

def MIN_REFLECTION_LENGTH : Nat := 20

def CONFIDENCE_THRESHOLD_PASS : Int := 70

def CONFIDENCE_THRESHOLD_SECOND_PHOTO : Int := 60

/-- `VALID_GOALS.get(goal_id)`. -/
def goalsLookup (goal_id : String) : Option String :=
  (VALID_GOALS.find? (fun p => p.1 == goal_id)).map (fun p => p.2)

/-- `goal_id in VALID_GOALS`. -/
def validGoalId (goal_id : String) : Bool := (goalsLookup goal_id).isSome

def imageMimeTypes : List String := ["png", "jpeg", "jpg", "gif", "webp"]

def dataUrlHead (m : String) : String := "data:image/" ++ m ++ ";base64,"

/-- `validate_data_url` (verify.py lines 59-77): full match of
`^data:image/(png|jpeg|jpg|gif|webp);base64,([A-Za-z0-9+/=]+)$` followed by
`base64.b64decode(body, validate=True)`. -/
def validate_data_url (data_url : String) : Bool :=
  if data_url == "" then false
  else
    match imageMimeTypes.find? (fun m => isPrefixList (dataUrlHead m).data data_url.data) with
    | none => false
    | some m =>
      let body : List Char := data_url.data.drop (dataUrlHead m).data.length
      !body.isEmpty && body.all isB64UrlChar && (decodeGroups body).isSome

/-- `len(reflection.strip())` (verify.py line 104). -/
def reflectionLength (reflection : String) : Nat := (pyStrip reflection).length

/-- `min(30, reflection_length // 10)` (verify.py line 112). -/
def lengthBonus (reflection : String) : Nat := min 30 (reflectionLength reflection / 10)

/-- Check 4 of `heuristic_verification` (verify.py lines 122-131): the goal
name's word set meets the reflection's word set, case-insensitively. -/
def keywordMatch (goal_id reflection : String) : Bool :=
  let goal_keywords := pySplitWs (pyLower ((goalsLookup goal_id).getD ""))
  let reflection_words := pySplitWs (pyLower reflection)
  goal_keywords.any (fun w => reflection_words.contains w)

/-- The running confidence of `heuristic_verification` (verify.py lines
93-135), accumulated check by check in source order. -/
def heuristicConfidence (goal_id reflection image_data_url : String) : Int :=
  let c1 : Int := if validGoalId goal_id then 30 else 0
  let c2 : Int :=
    if MIN_REFLECTION_LENGTH ≤ reflectionLength reflection then
      c1 + (lengthBonus reflection : Int)
    else c1
  let c3 : Int := if validate_data_url image_data_url then c2 + 20 else c2
  if keywordMatch goal_id reflection then c3 + 20 else pyMax 0 (c3 - 10)

/-- The `reasons` list of `heuristic_verification` (verify.py lines 94-117),
in source order. -/
def failureReasons (goal_id reflection image_data_url : String) : List String :=
  (if validGoalId goal_id then [] else ["Invalid goal ID: '" ++ goal_id ++ "'"])
  ++ (if MIN_REFLECTION_LENGTH ≤ reflectionLength reflection then []
      else ["Reflection too short (" ++ toString (reflectionLength reflection) ++
        " chars, minimum " ++ toString MIN_REFLECTION_LENGTH ++ ")"])
  ++ (if validate_data_url image_data_url then []
      else ["Invalid image data URL format"])

/-- Python `"; ".join(reasons)`. -/
def pyJoin (sep : String) : List String → String
  | [] => ""
  | [s] => s
  | s :: rest => s ++ sep ++ pyJoin sep rest

structure VerificationChecks where
  validGoal : Bool
  sufficientReflection : Bool
  validImage : Bool
  aiVerified : Option Bool := none
deriving DecidableEq

structure HeuristicResult where
  verified : Bool
  confidence : Int
  reason : String
  checks : VerificationChecks
deriving DecidableEq

/-- `heuristic_verification` (verify.py lines 80-140). -/
def heuristic_verification (goal_id reflection image_data_url : String) : HeuristicResult :=
  let rs := failureReasons goal_id reflection image_data_url
  let goalOk := validGoalId goal_id
  let reflOk := decide (MIN_REFLECTION_LENGTH ≤ reflectionLength reflection)
  let imgOk := validate_data_url image_data_url
  { verified := goalOk && reflOk && imgOk,
    confidence := heuristicConfidence goal_id reflection image_data_url,
    reason := if rs.isEmpty then "All heuristic checks passed" else pyJoin "; " rs,
    checks := ⟨goalOk, reflOk, imgOk, none⟩ }

structure VerifyRequest where
  goalId : String
  reflection : String
  imageDataUrl : String
  secondImageDataUrl : Option String := none

/-- Python truthiness of the optional second image: `None` and `""` are falsy. -/
def pyTruthyStr : Option String → Bool
  | none => false
  | some s => !(s == "")

/-- Environment for `ai_vision_verification` (verify.py lines 143-245): the
function always returns an `(adjustment, feedback)` pair and never raises
(every failure path returns adjustment 0), so an arbitrary pair models it. -/
structure AiEnv where
  adjustment : Int
  feedback : String

structure VerifyResponse where
  verified : Bool
  confidence : Int
  reason : String
  feedback : String
  needsSecondPhoto : Bool
  checks : VerificationChecks
deriving DecidableEq

/-- The one externally visible effect of `verify_proof`: the call into the
external classifier. -/
inductive VerifyEvent where
  | aiCall
deriving DecidableEq

/-- `verify_proof` (verify.py lines 248-309), with the classifier call made
explicit in the returned event list. -/
def verify_proof (body : VerifyRequest) (env : AiEnv) : VerifyResponse × List VerifyEvent :=
  let h := heuristic_verification body.goalId body.reflection body.imageDataUrl
  let step2 :=
    if h.verified then
      (pyMax 0 (pyMin 100 (h.confidence + env.adjustment)), env.feedback,
        { h.checks with aiVerified := some (decide (0 < env.adjustment)) },
        [VerifyEvent.aiCall])
    else (h.confidence, h.reason, h.checks, ([] : List VerifyEvent))
  let confidence := step2.1
  let feedback0 := step2.2.1
  let checks := step2.2.2.1
  let events := step2.2.2.2
  let final_verified := h.verified && decide (CONFIDENCE_THRESHOLD_PASS ≤ confidence)
  let needs_second_photo := h.verified && !(pyTruthyStr body.secondImageDataUrl)
    && decide (CONFIDENCE_THRESHOLD_SECOND_PHOTO ≤ confidence)
    && decide (confidence < CONFIDENCE_THRESHOLD_PASS)
  let feedback :=
    if final_verified then
      (if feedback0 == "" then
        "Proof verified! Your " ++ (goalsLookup body.goalId).getD "None" ++ " goal is confirmed."
      else feedback0)
    else if needs_second_photo then
      "Verification uncertain (confidence: " ++ toString confidence ++
        "%). Please submit a second photo for additional verification."
    else if !h.verified then "Verification failed: " ++ h.reason
    else if feedback0 == "" then
      "Confidence too low (" ++ toString confidence ++ "%). Please provide clearer evidence."
    else feedback0
  ({ verified := final_verified, confidence := confidence,
     reason := if final_verified then "Verified" else h.reason,
     feedback := feedback, needsSecondPhoto := needs_second_photo,
     checks := checks }, events)

/-! ## Randomness selector (`backend/api/qrng.py`) -/

def DEFAULT_SEED_SIZE : Nat := 32

def MAX_SEED_SIZE : Nat := 128

def MIN_SEED_SIZE : Nat := 16

/-- The JSON body the ANU QRNG endpoint answers with, as read by
`_fetch_quantum_bytes`: HTTP status, `success` flag, `data` array. -/
structure QrngApiResponse where
  status : Nat
  success : Bool
  data : List Nat
deriving DecidableEq

/-- `_fetch_quantum_bytes` (qrng.py lines 34-71).  The final
`bytes(random_values)` raises `ValueError` on values outside 0..255; the last
check models that raise. -/
def fetch_quantum_bytes (num_bytes : Nat) (resp : QrngApiResponse) :
    Except String (List Nat) :=
  if resp.status ≠ 200 then
    .error ("QRNG API returned status " ++ toString resp.status)
  else if !resp.success then
    .error "QRNG API returned success=false"
  else if resp.data.length ≠ num_bytes then
    .error ("QRNG API returned " ++ toString resp.data.length ++ " bytes, expected "
      ++ toString num_bytes)
  else if resp.data.any (fun v => 255 < v) then
    .error "bytes() argument out of range"
  else .ok resp.data

/-- The four preset configurations of retry.py (lines 136-168). -/
def QUICK_RETRY : RetryConfig String :=
  { max_attempts := 3, initial_delay := 1 / 2, max_delay := 5, backoff_factor := 2 }

def STANDARD_RETRY : RetryConfig String :=
  { max_attempts := 3, initial_delay := 1, max_delay := 30, backoff_factor := 2 }

def PATIENT_RETRY : RetryConfig String :=
  { max_attempts := 5, initial_delay := 2, max_delay := 60, backoff_factor := 2 }

def NETWORK_RETRY : RetryConfig String :=
  { max_attempts := 4, initial_delay := 2, max_delay := 16, backoff_factor := 2 }

/-- Environment of one qrng request: the external API's response per attempt,
the jitter source, the local CSPRNG byte stream (`secrets.token_bytes`), and
the clock in milliseconds. -/
structure QrngEnv where
  resp : Nat → QrngApiResponse
  uniform : Nat → ℚ → ℚ → ℚ
  entropy : Nat → Nat
  nowMs : Int

/-- `get_quantum_random_bytes` (qrng.py lines 74-91): retry the fetch with
`NETWORK_RETRY`; `None` on exhaustion. -/
def get_quantum_random_bytes (num_bytes : Nat) (env : QrngEnv) : Option (List Nat) :=
  match (retry_async NETWORK_RETRY
      (fun attempt => fetch_quantum_bytes num_bytes (env.resp attempt)) env.uniform).1 with
  | .ok bs => some bs
  | .error _ => none

/-- `get_pseudo_random_bytes` (qrng.py lines 93-100): `secrets.token_bytes`
always yields exactly `num_bytes` bytes. -/
def get_pseudo_random_bytes (num_bytes : Nat) (env : QrngEnv) : List Nat :=
  (List.range num_bytes).map (fun i => env.entropy i % 256)

/-- The lowercase hex digit for `n % 16`, computed from character codes
(digits start at code 48, letters `a`-`f` at code 97). -/
def hexDigit (n : Nat) : Char :=
  let m := n % 16
  if m < 10 then Char.ofNat (48 + m) else Char.ofNat (87 + m)

/-- One byte as two lowercase hex characters, as Python `bytes.hex` does. -/
def hexByte (b : Nat) : List Char := [hexDigit (b / 16), hexDigit (b % 16)]

def bytesHexChars : List Nat → List Char
  | [] => []
  | b :: bs => hexByte b ++ bytesHexChars bs

/-- Python `bytes.hex()`. -/
def bytesHex (bs : List Nat) : String := ⟨bytesHexChars bs⟩

inductive SeedSource where
  | quantum
  | pseudo
deriving DecidableEq

structure QuantumSeedResponse where
  seed : String
  source : SeedSource
  timestamp : Int
  size : Nat
deriving DecidableEq

/-- Events of one `generate_quantum_seed` request: the
`int(time.time() * 1000)` clock read (line 122), the quantum fetch
(line 125), the CSPRNG fallback (line 133). -/
inductive SeedEvent where
  | readClock
  | fetchQuantum
  | genPseudo
deriving DecidableEq

def SeedEvent.isGeneration : SeedEvent → Bool
  | .readClock => false
  | .fetchQuantum => true
  | .genPseudo => true

/-- `generate_quantum_seed` (qrng.py lines 103-142), with its events in
source order: clock read first, then byte generation. -/
def generate_quantum_seed (size : Nat) (env : QrngEnv) :
    QuantumSeedResponse × List SeedEvent :=
  let timestamp := env.nowMs
  match get_quantum_random_bytes size env with
  | some quantum_bytes =>
    ({ seed := bytesHex quantum_bytes, source := .quantum, timestamp := timestamp,
       size := size }, [.readClock, .fetchQuantum])
  | none =>
    ({ seed := bytesHex (get_pseudo_random_bytes size env), source := .pseudo,
       timestamp := timestamp, size := size }, [.readClock, .fetchQuantum, .genPseudo])

/-- C8's claim about the qrng events, literally: the clock read happens after
generation, i.e. no generation event follows a clock read. -/
def timestampAfterGeneration : List SeedEvent → Bool
  | [] => true
  | .readClock :: rest => rest.all (fun e => !e.isGeneration)
  | _ :: rest => timestampAfterGeneration rest

/-! ## Storage proxy (`backend/api/ipfs.py`) -/

def MAX_FILE_SIZE : Nat := 10 * 1024 * 1024

structure HTTPError where
  status : Nat
  detail : String
deriving DecidableEq

structure PinResponse where
  cid : String
  uri : String
  size : Nat
deriving DecidableEq

/-- Contacts with the backing IPFS store, in order: the
`is_ipfs_available()` probe and the `/api/v0/add` upload. -/
inductive IpfsEvent where
  | availabilityCheck
  | addCall
deriving DecidableEq

structure IpfsEnv where
  available : Bool
  addStatus : Nat
  addHash : String
  addTimeout : Bool

/-- `pin_to_ipfs` (ipfs.py lines 58-97). -/
def pin_to_ipfs (_bs : List Nat) (env : IpfsEnv) : Except HTTPError String :=
  if env.addTimeout then .error ⟨503, "IPFS node timeout"⟩
  else if env.addStatus ≠ 200 then .error ⟨503, "IPFS add failed"⟩
  else .ok env.addHash

/-- `pin_encrypted_data` (ipfs.py lines 146-188): decode, size check,
availability probe, upload — rejecting at the first failing step. -/
def pin_encrypted_data (data : String) (env : IpfsEnv) :
    Except HTTPError PinResponse × List IpfsEvent :=
  match pyB64decode data with
  | none => (.error ⟨400, "Invalid base64 data"⟩, [])
  | some data_bytes =>
    if MAX_FILE_SIZE < data_bytes.length then
      (.error ⟨413, "Data exceeds max size of " ++ toString MAX_FILE_SIZE ++ " bytes"⟩, [])
    else if !env.available then
      (.error ⟨503, "IPFS node not available"⟩, [.availabilityCheck])
    else
      match pin_to_ipfs data_bytes env with
      | .ok cid =>
        (.ok ⟨cid, "ipfs://" ++ cid, data_bytes.length⟩, [.availabilityCheck, .addCall])
      | .error e => (.error e, [.availabilityCheck, .addCall])

/-! ### Concrete pipeline inputs used as witnesses and counterexamples -/

/-- A request whose goal id is unknown (structural check 1 fails). -/
def bodyInvalidGoal : VerifyRequest :=
  { goalId := "bogus", reflection := "hi", imageDataUrl := "x" }

/-- A request passing all three structural checks whose confidence stays
below 70: goal `custom`, a 23-character reflection sharing no word with
"Custom goal", and a minimal valid PNG data URL. -/
def bodyLowConf : VerifyRequest :=
  { goalId := "custom", reflection := "aaaaaaaaaaaaaaaaaaaaaaa",
    imageDataUrl := "data:image/png;base64,AAAA" }

/-- Classifier environment with no adjustment and empty feedback (the
no-API-key path returns adjustment 0). -/
def aiEnvZero : AiEnv := { adjustment := 0, feedback := "" }

/-- A qrng environment whose external source fails on every attempt. -/
def qrngEnvDown : QrngEnv :=
  { resp := fun _ => { status := 500, success := false, data := [] },
    uniform := fun _ _ _ => 0, entropy := fun _ => 0, nowMs := 1700000000000 }

/-- 3495254 base64 quadruples `AAAA`: decodes to 10485762 bytes, just over
the 10 MiB limit. -/
def oversizedPayload : String := ⟨List.replicate (4 * 3495254) 'A'⟩

def ipfsEnvUp : IpfsEnv :=
  { available := true, addStatus := 200, addHash := "QmX", addTimeout := false }

/-! ### Theorems about the retry executor -/

theorem retryLoop_ok_of_attempt {A E : Type} (cfg : RetryConfig E)
    (op : Nat → Except E A) (u : Nat → ℚ → ℚ → ℚ) (v : A) :
    ∀ (remaining attempt : Nat) (delay : ℚ) (lastE : Option E),
      (retryLoop cfg op u remaining attempt delay lastE).1 = .ok v →
      ∃ i, op i = .ok v := by
  intro remaining
  induction remaining with
  | zero =>
    intro attempt delay lastE h
    cases lastE <;> simp [retryLoop] at h
  | succ r ih =>
    intro attempt delay lastE h
    simp only [retryLoop] at h
    cases hop : op attempt with
    | ok w =>
      rw [hop] at h
      simp at h
      exact ⟨attempt, by rw [hop, h]⟩
    | error e =>
      rw [hop] at h
      dsimp only at h
      by_cases hr : cfg.retryable e = true
      · rw [if_pos hr] at h
        by_cases hm : attempt = cfg.max_attempts
        · rw [if_pos hm] at h; simp at h
        · rw [if_neg hm] at h
          exact ih (attempt + 1) (delay * cfg.backoff_factor) (some e) h
      · rw [if_neg hr] at h; simp at h

/-- C3: with `max_attempts = 1` the executor invokes the operation exactly
once, never sleeps, and the caller sees the operation's own success value or
failure. -/
theorem retry_single_attempt {A E : Type} (cfg : RetryConfig E) (op : Nat → Except E A)
    (u : Nat → ℚ → ℚ → ℚ) (h : cfg.max_attempts = 1) :
    (retry_async cfg op u).1 = (op 1).mapError RetryError.fromOp
    ∧ ((retry_async cfg op u).2.filter RetryEvent.isCall).length = 1
    ∧ (retry_async cfg op u).2.filter RetryEvent.isSleep = [] := by
  unfold retry_async
  rw [h]
  cases hop : op 1 with
  | ok v =>
    simp [retryLoop, hop, RetryEvent.isCall, RetryEvent.isSleep, Except.mapError,
      List.filter]
  | error e =>
    by_cases hr : cfg.retryable e = true
    · simp [retryLoop, hop, hr, h, Except.mapError, RetryEvent.isCall,
        RetryEvent.isSleep, List.filter]
    · simp [retryLoop, hop, hr, Except.mapError, RetryEvent.isCall,
        RetryEvent.isSleep, List.filter]

/-- Exhaustion lemma for the loop: if every attempt from the current one on
fails retryably, the loop propagates the failure of the final attempt and
logs the `All ... attempts failed` record carrying `max_attempts`. -/
theorem retryLoop_exhaust {A E : Type} (cfg : RetryConfig E) (op : Nat → Except E A)
    (u : Nat → ℚ → ℚ → ℚ) (e : E) (hlast : op cfg.max_attempts = .error e) :
    ∀ (remaining attempt : Nat) (delay : ℚ) (lastE : Option E),
      attempt + remaining = cfg.max_attempts + 1 → 1 ≤ remaining →
      (∀ i, attempt ≤ i → i ≤ cfg.max_attempts →
        ∃ err, op i = .error err ∧ cfg.retryable err = true) →
      (retryLoop cfg op u remaining attempt delay lastE).1 = .error (.fromOp e)
      ∧ RetryEvent.allFailed cfg.max_attempts e ∈
          (retryLoop cfg op u remaining attempt delay lastE).2 := by
  intro remaining
  induction remaining with
  | zero => intro attempt delay lastE hsum hone; omega
  | succ r ih =>
    intro attempt delay lastE hsum hone hfail
    have hle : attempt ≤ cfg.max_attempts := by omega
    obtain ⟨err, hop, hr⟩ := hfail attempt le_rfl hle
    simp only [retryLoop]
    rw [hop]
    dsimp only
    rw [if_pos hr]
    by_cases hm : attempt = cfg.max_attempts
    · rw [if_pos hm]
      have herr : err = e := by
        rw [hm] at hop
        rw [hop] at hlast
        exact (Except.error.injEq _ _).mp hlast
      subst herr
      simp
    · rw [if_neg hm]
      have hm' : attempt ≠ cfg.max_attempts := hm
      have hr1 : 1 ≤ r := by omega
      have hrec := ih (attempt + 1) (delay * cfg.backoff_factor) (some err)
        (by omega) hr1 (fun i hi₁ hi₂ => hfail i (by omega) hi₂)
      refine ⟨hrec.1, ?_⟩
      exact List.mem_cons_of_mem _ (List.mem_cons_of_mem _ (List.mem_cons_of_mem _ hrec.2))

/-- C4 top-level statement: all attempts fail retryably, the last failure is
propagated, and the `All {max_attempts} attempts failed` log record carries
the attempt count. -/
theorem retry_exhaustion_propagates {A E : Type} (cfg : RetryConfig E)
    (op : Nat → Except E A) (u : Nat → ℚ → ℚ → ℚ) (e : E)
    (hpos : 1 ≤ cfg.max_attempts)
    (hfail : ∀ i, 1 ≤ i → i ≤ cfg.max_attempts →
      ∃ err, op i = .error err ∧ cfg.retryable err = true)
    (hlast : op cfg.max_attempts = .error e) :
    (retry_async cfg op u).1 = .error (.fromOp e)
    ∧ RetryEvent.allFailed cfg.max_attempts e ∈ (retry_async cfg op u).2 :=
  retryLoop_exhaust cfg op u e hlast cfg.max_attempts 1 cfg.initial_delay none
    (by omega) hpos hfail

/-- Sleep-schedule lemma for the loop: when every attempt fails retryably and
the threaded `delay` equals `initial_delay * backoff_factor ^ (attempt - 1)`,
the sleeps the loop still performs are exactly the capped-and-jittered
exponential waits for the remaining attempts. -/
theorem retryLoop_sleeps {A E : Type} (cfg : RetryConfig E) (op : Nat → Except E A)
    (u : Nat → ℚ → ℚ → ℚ)
    (hfail : ∀ i, 1 ≤ i → i ≤ cfg.max_attempts →
      ∃ err, op i = .error err ∧ cfg.retryable err = true) :
    ∀ (remaining attempt : Nat) (delay : ℚ) (lastE : Option E),
      attempt + remaining = cfg.max_attempts + 1 → 1 ≤ attempt →
      delay = cfg.initial_delay * cfg.backoff_factor ^ (attempt - 1) →
      sleepDurations (retryLoop cfg op u remaining attempt delay lastE).2 =
        (List.range (remaining - 1)).map (fun k => scheduledWait cfg u (attempt + k)) := by
  intro remaining
  induction remaining with
  | zero =>
    intro attempt delay lastE hsum hatt hdelay
    cases lastE <;> simp [retryLoop, sleepDurations]
  | succ r ih =>
    intro attempt delay lastE hsum hatt hdelay
    have hle : attempt ≤ cfg.max_attempts := by omega
    obtain ⟨err, hop, hr⟩ := hfail attempt hatt hle
    simp only [retryLoop]
    rw [hop]
    dsimp only
    rw [if_pos hr]
    by_cases hm : attempt = cfg.max_attempts
    · rw [if_pos hm]
      have hr0 : r = 0 := by omega
      subst hr0
      simp [sleepDurations]
    · rw [if_neg hm]
      have hm' : attempt ≠ cfg.max_attempts := hm
      have hr1 : 1 ≤ r := by omega
      have hdelay' : delay * cfg.backoff_factor =
          cfg.initial_delay * cfg.backoff_factor ^ ((attempt + 1) - 1) := by
        rw [hdelay]
        have h1 : attempt - 1 + 1 = attempt := by omega
        rw [mul_assoc, ← pow_succ, h1]
        simp
      have hrec := ih (attempt + 1) (delay * cfg.backoff_factor) (some err)
        (by omega) (by omega) hdelay'
      simp only [sleepDurations, List.filterMap] at hrec ⊢
      rw [hrec]
      obtain ⟨s, hs⟩ : ∃ s, r = s + 1 := ⟨r - 1, by omega⟩
      subst hs
      simp only [Nat.add_sub_cancel] at *
      rw [List.range_succ_eq_map]
      simp only [List.map_cons, List.map_map, List.cons.injEq]
      constructor
      · rw [hdelay]
        simp [scheduledWait]
      · apply List.map_congr_left
        intro k _
        simp only [Function.comp]
        congr 1
        omega

/-- Amended C1: for a run in which every attempt fails retryably, the waits
scheduled between consecutive attempts are exactly
`min(initial_delay * backoff_factor ^ (i - 1), max_delay)` for
`i = 1 .. max_attempts - 1`, each perturbed by the drawn jitter and floored
at zero when `jitter` is enabled. -/
theorem retry_backoff_schedule {A E : Type} (cfg : RetryConfig E)
    (op : Nat → Except E A) (u : Nat → ℚ → ℚ → ℚ)
    (hfail : ∀ i, 1 ≤ i → i ≤ cfg.max_attempts →
      ∃ err, op i = .error err ∧ cfg.retryable err = true) :
    sleepDurations (retry_async cfg op u).2 =
      (List.range (cfg.max_attempts - 1)).map (fun k => scheduledWait cfg u (k + 1)) := by
  unfold retry_async
  rw [retryLoop_sleeps cfg op u hfail cfg.max_attempts 1 cfg.initial_delay none
    (by omega) le_rfl (by simp)]
  apply List.map_congr_left
  intro k _
  congr 1
  omega

/-- C1 as stated is false on `cfgCapped` (`initial_delay = 100 > max_delay = 5`):
the executor sleeps `[5, 5]` (each wait capped at `max_delay` before
sleeping), while the claimed recurrence `delay_1 = initial_delay`,
`delay_{i+1} = min(delay_i * backoff_factor, max_delay)` predicts `[100, 5]`. -/
theorem retry_backoff_claim_counterexample :
    sleepDurations (retry_async cfgCapped opAlwaysFail uniformZero).2 = [5, 5]
    ∧ (List.range (cfgCapped.max_attempts - 1)).map (claimDelay cfgCapped) = [100, 5]
    ∧ sleepDurations (retry_async cfgCapped opAlwaysFail uniformZero).2 ≠
        (List.range (cfgCapped.max_attempts - 1)).map (claimDelay cfgCapped) := by
  have h1 : sleepDurations (retry_async cfgCapped opAlwaysFail uniformZero).2 = [5, 5] := by
    show sleepDurations (retryLoop cfgCapped opAlwaysFail uniformZero 3 1 100 none).2 = [5, 5]
    simp only [retryLoop, opAlwaysFail, cfgCapped, sleepDurations]
    norm_num [List.filterMap]
  have h2 : (List.range (cfgCapped.max_attempts - 1)).map (claimDelay cfgCapped) = [100, 5] := by
    show [claimDelay cfgCapped 0, claimDelay cfgCapped 1] = [100, 5]
    simp only [claimDelay, cfgCapped]
    norm_num
  refine ⟨h1, h2, ?_⟩
  rw [h1, h2]
  simp only [ne_eq, List.cons.injEq, not_and]
  intro h5
  norm_num at h5

theorem retry_backoff_schedule_witness :
    sleepDurations (retry_async cfgThree opAlwaysFail uniformZero).2 =
      (List.range (cfgThree.max_attempts - 1)).map
        (fun k => scheduledWait cfgThree uniformZero (k + 1)) :=
  retry_backoff_schedule cfgThree opAlwaysFail uniformZero
    (fun _ _ _ => ⟨(), rfl, rfl⟩)

theorem retry_single_attempt_witness :
    cfgOne.max_attempts = 1 ∧
    ((retry_async cfgOne opAlwaysFail uniformZero).1 =
        (opAlwaysFail 1).mapError RetryError.fromOp
      ∧ ((retry_async cfgOne opAlwaysFail uniformZero).2.filter RetryEvent.isCall).length = 1
      ∧ (retry_async cfgOne opAlwaysFail uniformZero).2.filter RetryEvent.isSleep = []) :=
  ⟨rfl, retry_single_attempt cfgOne opAlwaysFail uniformZero rfl⟩

theorem retry_exhaustion_witness :
    1 ≤ cfgThree.max_attempts ∧
    ((retry_async cfgThree opAlwaysFail uniformZero).1 = .error (.fromOp ())
      ∧ RetryEvent.allFailed cfgThree.max_attempts () ∈
          (retry_async cfgThree opAlwaysFail uniformZero).2) :=
  ⟨by decide, retry_exhaustion_propagates cfgThree opAlwaysFail uniformZero ()
    (by decide) (fun i _ _ => ⟨(), rfl, rfl⟩) rfl⟩

/-! ### Theorems about the verification pipeline -/

theorem pyMax_eq_max (a b : Int) : pyMax a b = max a b := by
  unfold pyMax
  split <;> omega

theorem pyMin_eq_min (a b : Int) : pyMin a b = min a b := by
  unfold pyMin
  split <;> omega

theorem heuristicConfidence_bounds (g r i : String) :
    0 ≤ heuristicConfidence g r i ∧ heuristicConfidence g r i ≤ 100 := by
  have h1 : lengthBonus r ≤ 30 := Nat.min_le_left _ _
  have h1' : (lengthBonus r : Int) ≤ 30 := by exact_mod_cast h1
  have h0 : (0 : Int) ≤ (lengthBonus r : Int) := Int.ofNat_nonneg _
  unfold heuristicConfidence
  simp only [pyMax_eq_max]
  by_cases hg : validGoalId g = true <;>
    by_cases hl : MIN_REFLECTION_LENGTH ≤ reflectionLength r <;>
      by_cases hi : validate_data_url i = true <;>
        by_cases hk : keywordMatch g r = true <;>
          simp [hg, hl, hi, hk] <;> omega

/-- C2: the confidence score is an integer in [0, 100] both after the
heuristic stage and in the final response, for every request and every
classifier adjustment. -/
theorem confidence_always_in_range (body : VerifyRequest) (env : AiEnv) :
    (0 ≤ (heuristic_verification body.goalId body.reflection body.imageDataUrl).confidence
      ∧ (heuristic_verification body.goalId body.reflection body.imageDataUrl).confidence ≤ 100)
    ∧ (0 ≤ (verify_proof body env).1.confidence
      ∧ (verify_proof body env).1.confidence ≤ 100) := by
  have hb := heuristicConfidence_bounds body.goalId body.reflection body.imageDataUrl
  have hh : (heuristic_verification body.goalId body.reflection body.imageDataUrl).confidence
      = heuristicConfidence body.goalId body.reflection body.imageDataUrl := by
    simp [heuristic_verification]
  refine ⟨by rw [hh]; exact hb, ?_⟩
  by_cases hv : (heuristic_verification body.goalId body.reflection
      body.imageDataUrl).verified = true
  · simp only [verify_proof, hv, if_pos, pyMax_eq_max, pyMin_eq_min]
    omega
  · simp only [Bool.not_eq_true] at hv
    simp only [verify_proof, hv, Bool.false_eq_true, if_false]
    rw [hh]
    exact hb

theorem heuristic_verified_iff_checks (g r i : String) :
    (heuristic_verification g r i).verified =
      ((heuristic_verification g r i).checks.validGoal
        && (heuristic_verification g r i).checks.sufficientReflection
        && (heuristic_verification g r i).checks.validImage) := by
  simp [heuristic_verification]

theorem failureReasons_nil_iff (g r i : String) :
    failureReasons g r i = []
      ↔ (validGoalId g = true ∧ MIN_REFLECTION_LENGTH ≤ reflectionLength r
          ∧ validate_data_url i = true) := by
  unfold failureReasons
  by_cases h1 : validGoalId g = true <;>
    by_cases h2 : MIN_REFLECTION_LENGTH ≤ reflectionLength r <;>
      by_cases h3 : validate_data_url i = true <;> simp [h1, h2, h3]

theorem heuristic_reason_of_verified (g r i : String)
    (h : (heuristic_verification g r i).verified = true) :
    (heuristic_verification g r i).reason = "All heuristic checks passed" := by
  simp only [heuristic_verification, Bool.and_eq_true, decide_eq_true_eq] at h
  obtain ⟨⟨h1, h2⟩, h3⟩ := h
  have hnil : failureReasons g r i = [] := (failureReasons_nil_iff g r i).mpr ⟨h1, h2, h3⟩
  simp [heuristic_verification, hnil]

theorem pyJoin_length_ge (sep x : String) (rest : List String) :
    x.length ≤ (pyJoin sep (x :: rest)).length := by
  cases rest with
  | nil => simp [pyJoin]
  | cons y ys =>
    simp only [pyJoin, String.length_append]
    omega

theorem pyJoin_ne_verified (sep x : String) (rest : List String)
    (hx : 8 < x.length) : pyJoin sep (x :: rest) ≠ "Verified" := by
  intro heq
  have h8 : (pyJoin sep (x :: rest)).length = 8 := by rw [heq]; rfl
  have hge := pyJoin_length_ge sep x rest
  omega

theorem heuristic_reason_ne_verified (g r i : String) :
    (heuristic_verification g r i).reason ≠ "Verified" := by
  have hr1 : ∀ s t : String, 8 < ("Invalid goal ID: '" ++ s ++ t).length := by
    intro s t
    rw [String.length_append, String.length_append]
    have : ("Invalid goal ID: '" : String).length = 18 := rfl
    omega
  have hr2 : ∀ s t : String, 8 < ("Reflection too short (" ++ s ++ t).length := by
    intro s t
    rw [String.length_append, String.length_append]
    have : ("Reflection too short (" : String).length = 22 := rfl
    omega
  have hr3 : (8 : Nat) < ("Invalid image data URL format" : String).length := by decide
  simp only [heuristic_verification]
  by_cases hrs : (failureReasons g r i).isEmpty = true
  · simp only [hrs, if_pos]
    decide
  · simp only [hrs, Bool.false_eq_true, if_false]
    unfold failureReasons at hrs ⊢
    by_cases h1 : validGoalId g = true <;>
      by_cases h2 : MIN_REFLECTION_LENGTH ≤ reflectionLength r <;>
        by_cases h3 : validate_data_url i = true <;>
          simp only [h1, h2, h3, if_true, if_false, Bool.false_eq_true, if_neg,
            List.nil_append, List.append_nil, List.cons_append, List.isEmpty] at hrs ⊢
    · exact absurd trivial hrs
    · exact pyJoin_ne_verified _ _ _ hr3
    · exact pyJoin_ne_verified _ _ _ (hr2 _ _)
    · exact pyJoin_ne_verified _ _ _ (hr2 _ _)
    · exact pyJoin_ne_verified _ _ _ (hr1 _ _)
    · exact pyJoin_ne_verified _ _ _ (hr1 _ _)
    · exact pyJoin_ne_verified _ _ _ (hr1 _ _)
    · exact pyJoin_ne_verified _ _ _ (hr1 _ _)

/-- C5 (amended): when a structural check fails, the classifier stage is
skipped and the reason aggregates the failures, but the feedback is
`"Verification failed: "` prefixed to the reason, not the reason itself. -/
theorem structural_failure_skips_classifier (body : VerifyRequest) (env : AiEnv)
    (h : (heuristic_verification body.goalId body.reflection body.imageDataUrl).checks.validGoal = false
      ∨ (heuristic_verification body.goalId body.reflection body.imageDataUrl).checks.sufficientReflection = false
      ∨ (heuristic_verification body.goalId body.reflection body.imageDataUrl).checks.validImage = false) :
    (verify_proof body env).2 = []
    ∧ (verify_proof body env).1.reason =
        (heuristic_verification body.goalId body.reflection body.imageDataUrl).reason
    ∧ (verify_proof body env).1.feedback =
        "Verification failed: "
          ++ (heuristic_verification body.goalId body.reflection body.imageDataUrl).reason := by
  have hv : (heuristic_verification body.goalId body.reflection body.imageDataUrl).verified
      = false := by
    rw [heuristic_verified_iff_checks]
    rcases h with h | h | h <;> simp [h]
  simp only [verify_proof, hv, Bool.false_eq_true, if_false, Bool.false_and,
    Bool.not_false, if_true, Bool.and_eq_true, false_and, and_true, true_and]

/-- C5 as stated is false on `bodyInvalidGoal`: the goal check fails, the
classifier is skipped and the reason aggregates the failures, but the
response's feedback is not equal to the reason (it carries the
`Verification failed: ` prefix). -/
theorem structural_failure_feedback_counterexample :
    (heuristic_verification bodyInvalidGoal.goalId bodyInvalidGoal.reflection
        bodyInvalidGoal.imageDataUrl).checks.validGoal = false
    ∧ (verify_proof bodyInvalidGoal aiEnvZero).2 = []
    ∧ (verify_proof bodyInvalidGoal aiEnvZero).1.feedback ≠
        (verify_proof bodyInvalidGoal aiEnvZero).1.reason := by
  refine ⟨by decide, by decide, by decide⟩

theorem structural_failure_skips_classifier_witness :
    ((heuristic_verification bodyInvalidGoal.goalId bodyInvalidGoal.reflection
        bodyInvalidGoal.imageDataUrl).checks.validGoal = false
      ∨ (heuristic_verification bodyInvalidGoal.goalId bodyInvalidGoal.reflection
          bodyInvalidGoal.imageDataUrl).checks.sufficientReflection = false
      ∨ (heuristic_verification bodyInvalidGoal.goalId bodyInvalidGoal.reflection
          bodyInvalidGoal.imageDataUrl).checks.validImage = false)
    ∧ ((verify_proof bodyInvalidGoal aiEnvZero).2 = []
      ∧ (verify_proof bodyInvalidGoal aiEnvZero).1.reason =
          (heuristic_verification bodyInvalidGoal.goalId bodyInvalidGoal.reflection
            bodyInvalidGoal.imageDataUrl).reason
      ∧ (verify_proof bodyInvalidGoal aiEnvZero).1.feedback =
          "Verification failed: "
            ++ (heuristic_verification bodyInvalidGoal.goalId bodyInvalidGoal.reflection
              bodyInvalidGoal.imageDataUrl).reason) :=
  ⟨Or.inl (by decide),
    structural_failure_skips_classifier bodyInvalidGoal aiEnvZero (Or.inl (by decide))⟩


/-- C6: the final verdict is pre-classifier verified AND confidence at least
70; the second-photo request is pre-classifier verified AND no second image
supplied AND confidence in [60, 70), with confidence the post-adjustment
score of the response. -/
theorem final_decision_thresholds (body : VerifyRequest) (env : AiEnv) :
    ((verify_proof body env).1.verified = true ↔
      ((heuristic_verification body.goalId body.reflection body.imageDataUrl).verified = true
        ∧ CONFIDENCE_THRESHOLD_PASS ≤ (verify_proof body env).1.confidence))
    ∧ ((verify_proof body env).1.needsSecondPhoto = true ↔
      ((heuristic_verification body.goalId body.reflection body.imageDataUrl).verified = true
        ∧ pyTruthyStr body.secondImageDataUrl = false
        ∧ CONFIDENCE_THRESHOLD_SECOND_PHOTO ≤ (verify_proof body env).1.confidence
        ∧ (verify_proof body env).1.confidence < CONFIDENCE_THRESHOLD_PASS)) := by
  by_cases hv : (heuristic_verification body.goalId body.reflection
      body.imageDataUrl).verified = true
  · simp only [verify_proof, hv, if_true]
    simp [Bool.and_eq_true, decide_eq_true_eq, Bool.not_eq_true', and_assoc]
  · simp only [Bool.not_eq_true] at hv
    simp only [verify_proof, hv, Bool.false_eq_true, if_false, Bool.false_and]
    simp [hv]

/-- C10: the reason field is the literal `Verified` exactly when the final
verdict is true; otherwise it is the heuristic stage's reason, so a
pre-verified request whose confidence stays below 70 still reads
`All heuristic checks passed` and never mentions the low confidence. -/
theorem reason_field_semantics (body : VerifyRequest) (env : AiEnv) :
    ((verify_proof body env).1.reason = "Verified" ↔ (verify_proof body env).1.verified = true)
    ∧ ((verify_proof body env).1.verified = false →
        (verify_proof body env).1.reason =
          (heuristic_verification body.goalId body.reflection body.imageDataUrl).reason)
    ∧ ((heuristic_verification body.goalId body.reflection body.imageDataUrl).verified = true →
        (verify_proof body env).1.confidence < CONFIDENCE_THRESHOLD_PASS →
        (verify_proof body env).1.reason = "All heuristic checks passed") := by
  have hner := heuristic_reason_ne_verified body.goalId body.reflection body.imageDataUrl
  have hrv := heuristic_reason_of_verified body.goalId body.reflection body.imageDataUrl
  by_cases hv : (heuristic_verification body.goalId body.reflection
      body.imageDataUrl).verified = true
  · by_cases hc : CONFIDENCE_THRESHOLD_PASS ≤
        pyMax 0 (pyMin 100 ((heuristic_verification body.goalId body.reflection
          body.imageDataUrl).confidence + env.adjustment))
    · simp only [verify_proof, hv, if_true]
      simp only [decide_eq_true hc, Bool.true_and, Bool.and_true, if_true]
      refine ⟨by simp, by simp, ?_⟩
      intro _ hlt
      omega
    · simp only [verify_proof, hv, if_true]
      have hcf : decide (CONFIDENCE_THRESHOLD_PASS ≤
          pyMax 0 (pyMin 100 ((heuristic_verification body.goalId body.reflection
            body.imageDataUrl).confidence + env.adjustment))) = false := by
        simpa using hc
      simp only [hcf, Bool.and_false, Bool.true_and, Bool.false_eq_true, if_false]
      refine ⟨by simp [hner], by simp, fun _ _ => hrv hv⟩
  · simp only [Bool.not_eq_true] at hv
    simp only [verify_proof, hv, Bool.false_eq_true, if_false, Bool.false_and]
    refine ⟨by simp [hner], by simp, fun hcon => absurd hcon (by simp [hv])⟩

theorem reason_field_semantics_witness :
    (heuristic_verification bodyLowConf.goalId bodyLowConf.reflection
        bodyLowConf.imageDataUrl).verified = true
    ∧ (verify_proof bodyLowConf aiEnvZero).1.confidence < CONFIDENCE_THRESHOLD_PASS
    ∧ (verify_proof bodyLowConf aiEnvZero).1.reason = "All heuristic checks passed" :=
  ⟨by decide, by decide,
    (reason_field_semantics bodyLowConf aiEnvZero).2.2 (by decide) (by decide)⟩

/-! ### Theorems about the randomness selector -/

theorem fetch_quantum_bytes_ok_length (n : Nat) (resp : QrngApiResponse) (v : List Nat)
    (h : fetch_quantum_bytes n resp = .ok v) : v.length = n := by
  unfold fetch_quantum_bytes at h
  split at h
  · exact absurd h (by simp)
  · split at h
    · exact absurd h (by simp)
    · split at h
      · exact absurd h (by simp)
      · split at h
        · exact absurd h (by simp)
        · next h3 _ =>
          simp only [Except.ok.injEq] at h
          simp only [ne_eq, Decidable.not_not] at h3
          rw [← h]
          exact h3

theorem get_quantum_random_bytes_length (n : Nat) (env : QrngEnv) (bs : List Nat)
    (h : get_quantum_random_bytes n env = some bs) : bs.length = n := by
  unfold get_quantum_random_bytes at h
  split at h
  · next v hres =>
    obtain ⟨i, hi⟩ := retryLoop_ok_of_attempt NETWORK_RETRY
      (fun attempt => fetch_quantum_bytes n (env.resp attempt)) env.uniform v
      NETWORK_RETRY.max_attempts 1 NETWORK_RETRY.initial_delay none hres
    simp only [Option.some.injEq] at h
    rw [← h]
    exact fetch_quantum_bytes_ok_length n (env.resp i) v hi
  · exact absurd h (by simp)

theorem bytesHexChars_length (bs : List Nat) :
    (bytesHexChars bs).length = 2 * bs.length := by
  induction bs with
  | nil => rfl
  | cons b rest ih =>
    simp only [bytesHexChars, hexByte, List.length_append, List.length_cons, ih,
      List.length_nil]
    omega

theorem bytesHex_length (bs : List Nat) : (bytesHex bs).length = 2 * bs.length := by
  show (bytesHexChars bs).length = 2 * bs.length
  exact bytesHexChars_length bs

/-- C7: for a pre-validated size, the seed operation always produces a hex
seed of exactly twice the size in characters, echoes the size, and labels
the result `pseudo` exactly when the quantum fetch was exhausted. -/
theorem seed_generation_total (size : Nat) (env : QrngEnv)
    (_h₁ : MIN_SEED_SIZE ≤ size) (_h₂ : size ≤ MAX_SEED_SIZE) :
    (generate_quantum_seed size env).1.seed.length = 2 * size
    ∧ (generate_quantum_seed size env).1.size = size
    ∧ ((generate_quantum_seed size env).1.source = SeedSource.pseudo ↔
        get_quantum_random_bytes size env = none) := by
  cases hq : get_quantum_random_bytes size env with
  | some bs =>
    have hlen := get_quantum_random_bytes_length size env bs hq
    simp only [generate_quantum_seed, hq]
    refine ⟨?_, by simp, by simp⟩
    rw [bytesHex_length, hlen]
  | none =>
    simp only [generate_quantum_seed, hq]
    refine ⟨?_, by simp, by simp⟩
    rw [bytesHex_length]
    simp [get_pseudo_random_bytes]

theorem seed_generation_total_witness :
    MIN_SEED_SIZE ≤ 16 ∧ 16 ≤ MAX_SEED_SIZE
    ∧ ((generate_quantum_seed 16 qrngEnvDown).1.seed.length = 2 * 16
      ∧ (generate_quantum_seed 16 qrngEnvDown).1.size = 16
      ∧ ((generate_quantum_seed 16 qrngEnvDown).1.source = SeedSource.pseudo ↔
          get_quantum_random_bytes 16 qrngEnvDown = none)) :=
  ⟨by decide, by decide, seed_generation_total 16 qrngEnvDown (by decide) (by decide)⟩

/-- C8 as stated is false: with the external source down, the run's events
are clock read first, then the quantum fetch, then the CSPRNG fallback, so
generation events follow the clock read. -/
theorem timestamp_order_counterexample :
    (generate_quantum_seed 16 qrngEnvDown).2 =
      [SeedEvent.readClock, SeedEvent.fetchQuantum, SeedEvent.genPseudo]
    ∧ timestampAfterGeneration (generate_quantum_seed 16 qrngEnvDown).2 = false := by
  have hq : get_quantum_random_bytes 16 qrngEnvDown = none := by
    simp [get_quantum_random_bytes, retry_async, retryLoop, fetch_quantum_bytes,
      qrngEnvDown, NETWORK_RETRY]
  constructor
  · simp [generate_quantum_seed, hq]
  · simp [generate_quantum_seed, hq, timestampAfterGeneration, SeedEvent.isGeneration]

/-- C8 (amended): the millisecond timestamp is read before byte generation
starts — the clock read is the first event of every run and never recurs. -/
theorem timestamp_read_before_generation (size : Nat) (env : QrngEnv) :
    ∃ rest, (generate_quantum_seed size env).2 = SeedEvent.readClock :: rest
      ∧ SeedEvent.readClock ∉ rest := by
  cases hq : get_quantum_random_bytes size env with
  | some bs =>
    refine ⟨[SeedEvent.fetchQuantum], ?_, by decide⟩
    simp [generate_quantum_seed, hq]
  | none =>
    refine ⟨[SeedEvent.fetchQuantum, SeedEvent.genPseudo], ?_, by decide⟩
    simp [generate_quantum_seed, hq]

/-! ### Theorems about the storage proxy -/

/-- C9: a pin request whose payload decodes to more than 10 MiB is rejected
with status 413 and the backing store is never contacted: no availability
probe, no upload. -/
theorem pin_oversized_rejected (data : String) (env : IpfsEnv) (data_bytes : List Nat)
    (hdec : pyB64decode data = some data_bytes)
    (hbig : MAX_FILE_SIZE < data_bytes.length) :
    (pin_encrypted_data data env).1 =
      .error ⟨413, "Data exceeds max size of " ++ toString MAX_FILE_SIZE ++ " bytes"⟩
    ∧ (pin_encrypted_data data env).2 = [] := by
  unfold pin_encrypted_data
  rw [hdec]
  dsimp only
  rw [if_pos hbig]
  exact ⟨rfl, rfl⟩

theorem filter_replicate_b64A (n : Nat) :
    (List.replicate n 'A').filter isB64UrlChar = List.replicate n 'A' := by
  induction n with
  | zero => rfl
  | succ k ih =>
    rw [List.replicate_succ, List.filter_cons]
    have hA : isB64UrlChar 'A' = true := by decide
    rw [hA]
    simp [ih]

theorem decodeGroups_replicate_A (k : Nat) :
    decodeGroups (List.replicate (4 * k) 'A') = some (List.replicate (3 * k) 0) := by
  induction k with
  | zero => rfl
  | succ n ih =>
    have h4 : 4 * (n + 1) = 4 + 4 * n := by ring
    have h3 : 3 * (n + 1) = 3 + 3 * n := by ring
    rw [h4, h3, List.replicate_add, List.replicate_add]
    show decodeGroups ('A' :: 'A' :: 'A' :: 'A' :: List.replicate (4 * n) 'A') =
      some (0 :: 0 :: 0 :: List.replicate (3 * n) 0)
    have hA : b64Index 'A' = some 0 := by decide
    have hne : ('A' : Char) = '=' ↔ False := by simp
    simp only [decodeGroups, hA, hne, if_false, ih, Option.map_some]
    rfl

theorem pin_oversized_rejected_witness :
    pyB64decode oversizedPayload = some (List.replicate (3 * 3495254) 0)
    ∧ MAX_FILE_SIZE < (List.replicate (3 * 3495254) (0 : Nat)).length
    ∧ ((pin_encrypted_data oversizedPayload ipfsEnvUp).1 =
        .error ⟨413, "Data exceeds max size of " ++ toString MAX_FILE_SIZE ++ " bytes"⟩
      ∧ (pin_encrypted_data oversizedPayload ipfsEnvUp).2 = []) := by
  have hdec : pyB64decode oversizedPayload = some (List.replicate (3 * 3495254) 0) := by
    show decodeGroups ((List.replicate (4 * 3495254) 'A').filter isB64UrlChar) = _
    rw [filter_replicate_b64A, decodeGroups_replicate_A]
  have hbig : MAX_FILE_SIZE < (List.replicate (3 * 3495254) (0 : Nat)).length := by
    rw [List.length_replicate]
    norm_num [MAX_FILE_SIZE]
  exact ⟨hdec, hbig, pin_oversized_rejected oversizedPayload ipfsEnvUp _ hdec hbig⟩
